import Mathlib

/-!
Verification of the GovDash query-interpretation and API-dispatch layer.

The definitions below are a shallow embedding of the Python sources
`pages/Air Sewa.py` and `pages/Consumption of Petroleum Products.py`:
Python strings become Lean `String`, Python dicts with string keys become
insertion-ordered association lists, `re.search` over the fixed pattern
set used by the sources is embedded by a small backtracking matcher, and
the fallible parts of `call_api` (secret lookup, HTTP response handling)
become explicit `Except`/parameterised functions.
-/

namespace GovDash

/-! ### Python string primitives -/

/-- Lower-casing of a single character as used by `str.lower()`.
ASCII and Latin-1 cased letters (the only cased characters appearing in
the sources' vocabularies) are mapped to their lowercase forms. -/
def lowerChar (c : Char) : Char :=
  if 'A' ≤ c ∧ c ≤ 'Z' then Char.ofNat (c.toNat + 32)
  else if 'À' ≤ c ∧ c ≤ 'Þ' ∧ c ≠ '×' then Char.ofNat (c.toNat + 32)
  else c

/-- Upper-casing of a single character as used by `str.upper()`. -/
def upperChar (c : Char) : Char :=
  if 'a' ≤ c ∧ c ≤ 'z' then Char.ofNat (c.toNat - 32)
  else if 'à' ≤ c ∧ c ≤ 'þ' ∧ c ≠ '÷' then Char.ofNat (c.toNat - 32)
  else c

/-- Embedding of Python `str.lower()`. -/
def pyLower (s : String) : String := String.mk (s.data.map lowerChar)

/-- Embedding of Python `str.upper()`. -/
def pyUpper (s : String) : String := String.mk (s.data.map upperChar)

/-- Whitespace test matching Python `\s` / `str.strip()` on the ASCII range. -/
def isSpaceC (c : Char) : Bool :=
  c = ' ' || c = '\t' || c = '\n' || c = '\r' || c = '\x0b' || c = '\x0c'

/-- Embedding of Python `str.strip()`: drop whitespace at both ends. -/
def pyStrip (s : String) : String :=
  String.mk (((s.data.dropWhile isSpaceC).reverse.dropWhile isSpaceC).reverse)

/-- Letter test used by `str.title()` word boundaries. -/
def isLetterC (c : Char) : Bool :=
  ('a' ≤ c ∧ c ≤ 'z') || ('A' ≤ c ∧ c ≤ 'Z')

/-- Character-level worker for `str.title()`: a letter is upper-cased when
the previous character is not a letter, otherwise lower-cased. -/
def pyTitleAux : Bool → List Char → List Char
  | _, [] => []
  | prevLetter, c :: rest =>
    (if isLetterC c then (if prevLetter then lowerChar c else upperChar c) else c)
      :: pyTitleAux (isLetterC c) rest

/-- Embedding of Python `str.title()`. -/
def pyTitle (s : String) : String := String.mk (pyTitleAux false s.data)

/-- Contiguous-substring test on character lists, embedding Python's
`needle in haystack` for strings. -/
def listContainsSub (needle : List Char) : List Char → Bool
  | [] => needle.isEmpty
  | c :: rest => needle.isPrefixOf (c :: rest) || listContainsSub needle rest

/-- Embedding of Python `needle in hay` for strings. -/
def strContainsS (hay needle : String) : Bool :=
  listContainsSub needle.data hay.data

/-- Decimal digit test (`\d` on the ASCII range). -/
def isDigitC (c : Char) : Bool := '0' ≤ c ∧ c ≤ '9'

/-- Word-character test matching Python `\w` on the ASCII range. -/
def isWordC (c : Char) : Bool :=
  isLetterC c || isDigitC c || c = '_'

/-- Embedding of Python `int("<digits>")` for the digit-only captures that
the sources feed to `int`. -/
def strToNat (s : String) : Nat :=
  s.data.foldl (fun n c => 10 * n + (c.toNat - 48)) 0

/-! ### Python dict model

Python dicts with string keys are modelled as insertion-ordered
association lists; `dictSet` is dict assignment (overwrite in place or
append at the end), `fget` is `dict.get`. -/

/-- Scalar filter values: the sources store strings and ints. -/
inductive FVal : Type
  | str (s : String)
  | int (n : Nat)
deriving DecidableEq, Repr

/-- A FilterSet / parameter dict: insertion-ordered key-value pairs. -/
def Filters : Type := List (String × FVal)

instance : DecidableEq Filters := by unfold Filters; infer_instance

/-- Python dict assignment `d[k] = v`: overwrite the existing entry in
place, otherwise append at the end. -/
def dictSet : Filters → String → FVal → Filters
  | [], k, v => [(k, v)]
  | (k', v') :: rest, k, v =>
    if k' = k then (k, v) :: rest else (k', v') :: dictSet rest k v

/-- Python `d.get(k)`: value of the first (unique) entry with key `k`. -/
def fget : Filters → String → Option FVal
  | [], _ => none
  | (k', v) :: rest, k => if k' = k then some v else fget rest k

/-- Key list of a dict, in insertion order. -/
def fkeys (fs : Filters) : List String := fs.map Prod.fst

/-- Python truthiness of a filter value (`if filters.get(key):`). -/
def fvalTruthy : FVal → Bool
  | .str s => !(s == "")
  | .int n => !(n == 0)

theorem fget_dictSet (fs : Filters) (k k' : String) (v : FVal) :
    fget (dictSet fs k v) k' = if k = k' then some v else fget fs k' := by
  induction fs with
  | nil => simp [dictSet, fget]
  | cons p rest ih =>
    obtain ⟨pk, pv⟩ := p
    by_cases hpk : pk = k
    · have hds : dictSet ((pk, pv) :: rest) k v = (k, v) :: rest := by
        simp [dictSet, hpk]
      rw [hds]
      by_cases hk' : k = k'
      · simp [fget, hk']
      · have h2 : ¬ pk = k' := by rw [hpk]; exact hk'
        simp [fget, hk', h2]
    · have hds : dictSet ((pk, pv) :: rest) k v = (pk, pv) :: dictSet rest k v := by
        simp [dictSet, hpk]
      rw [hds]
      by_cases hk2 : pk = k'
      · have hkk : ¬ k = k' := by intro h; exact hpk (hk2.trans h.symm)
        simp [fget, hk2, hkk]
      · simp [fget, hk2, ih]

theorem fkeys_dictSet (fs : Filters) (k : String) (v : FVal) :
    ∀ x ∈ fkeys (dictSet fs k v), x = k ∨ x ∈ fkeys fs := by
  induction fs with
  | nil => intro x hx; simp [dictSet, fkeys] at hx; exact Or.inl hx
  | cons p rest ih =>
    obtain ⟨pk, pv⟩ := p
    intro x hx
    by_cases hpk : pk = k
    · subst hpk
      simp only [dictSet, if_pos rfl] at hx
      simp [fkeys] at hx ⊢
      tauto
    · simp only [dictSet, if_neg hpk] at hx
      simp [fkeys] at hx ⊢
      rcases hx with h | h
      · tauto
      · rcases ih x (by simpa [fkeys] using h) with h1 | h1
        · tauto
        · simp [fkeys] at h1
          tauto

/-! ### Extractor step machinery

Every `parse_filters_*` function in the sources is a straight-line
sequence of conditional dict assignments over a fixed default dict.  A
step is a key together with the optional value extracted from the query;
`runSteps` applies the assignments in source order. -/

/-- One conditional assignment `if <matched>: filters[k] = v`. -/
def applyStep (fs : Filters) (p : String × Option FVal) : Filters :=
  match p.2 with
  | some v => dictSet fs p.1 v
  | none => fs

/-- Apply the conditional assignments of an extractor in source order. -/
def runSteps (init : Filters) (steps : List (String × Option FVal)) : Filters :=
  steps.foldl applyStep init

theorem runSteps_cons (init : Filters) (p : String × Option FVal)
    (steps : List (String × Option FVal)) :
    runSteps init (p :: steps) = runSteps (applyStep init p) steps := rfl

theorem fget_applyStep_ne (fs : Filters) (p : String × Option FVal) (k : String)
    (h : p.1 ≠ k) : fget (applyStep fs p) k = fget fs k := by
  unfold applyStep
  cases p.2 with
  | none => rfl
  | some v => rw [fget_dictSet]; simp [h]

theorem fget_runSteps_skip (steps : List (String × Option FVal)) (init : Filters)
    (k : String) (h : k ∉ steps.map Prod.fst) :
    fget (runSteps init steps) k = fget init k := by
  induction steps generalizing init with
  | nil => rfl
  | cons p rest ih =>
    have hp : p.1 ≠ k := by
      intro he; exact h (by simp [he])
    have hr : k ∉ rest.map Prod.fst := by
      intro hm; exact h (by simp [hm])
    rw [runSteps_cons, ih _ hr, fget_applyStep_ne _ _ _ hp]

theorem fkeys_runSteps (steps : List (String × Option FVal)) (init : Filters) :
    ∀ x ∈ fkeys (runSteps init steps), x ∈ fkeys init ∨ x ∈ steps.map Prod.fst := by
  induction steps generalizing init with
  | nil => intro x hx; exact Or.inl hx
  | cons p rest ih =>
    intro x hx
    rw [runSteps_cons] at hx
    rcases ih (applyStep init p) x hx with h | h
    · unfold applyStep at h
      cases hv : p.2 with
      | none => rw [hv] at h; exact Or.inl h
      | some v =>
        rw [hv] at h
        rcases fkeys_dictSet init p.1 v x h with h1 | h1
        · exact Or.inr (by simp [h1])
        · exact Or.inl h1
    · exact Or.inr (by simp [h])

/-! ### `re.search` embedding

The sources use a small fixed family of regular expressions.  They are
embedded via a token list (`RTok`): character literals and greedy
bounded character-class repetitions, matched with backtracking exactly as
Python's `re` does, scanning for the leftmost match.  Every pattern in
the sources consists of a prefix followed by a single trailing capture
group, so a pattern is a pair of token lists and the result of a search
is the captured text. -/

/-- Regex tokens: a literal character, or a greedy repetition of a
character class with a lower bound and an optional upper bound. -/
inductive RTok : Type
  | lit (c : Char)
  | cls (p : Char → Bool) (lo : Nat) (hi : Option Nat)

/-- Remainders of `s` after consuming `0, 1, 2, ...` characters of class
`p` (up to `hi`), shortest consumption first. -/
def clsRems (p : Char → Bool) : Nat → List Char → List (List Char)
  | 0, s => [s]
  | _ + 1, [] => [[]]
  | hi + 1, c :: s => if p c then (c :: s) :: clsRems p hi s else [c :: s]

/-- Match a token list against `s` with backtracking (greedy repetitions,
longest alternative first), handing the remainder to the continuation
`k`; the first success wins, as in Python `re`. -/
def matchToks : List RTok → List Char → (List Char → Option (List Char)) →
    Option (List Char)
  | [], s, k => k s
  | .lit c :: ts, s, k =>
    match s with
    | [] => none
    | x :: s' => if x = c then matchToks ts s' k else none
  | .cls p lo hi :: ts, s, k =>
    (((clsRems p (hi.getD s.length) s).drop lo).reverse).findSome?
      (fun r => matchToks ts r k)

/-- Try to match `pre` followed by the capture group `grp` at the start
of `s`; on success return the characters consumed by the group. -/
def reCapHere (pre grp : List RTok) (s : List Char) : Option (List Char) :=
  matchToks pre s (fun s1 =>
    matchToks grp s1 (fun s2 => some (s1.take (s1.length - s2.length))))

/-- Embedding of `re.search` for a pattern `pre(grp)`: scan the positions
of `s` left to right and return the leftmost match's captured group. -/
def reSearch (pre grp : List RTok) : List Char → Option String
  | [] => (reCapHere pre grp []).map String.mk
  | c :: rest =>
    match reCapHere pre grp (c :: rest) with
    | some g => some (String.mk g)
    | none => reSearch pre grp rest

/-- Search a pattern in a string (used on already lower-cased text). -/
def reSearchS (pre grp : List RTok) (s : String) : Option String :=
  reSearch pre grp s.data

/-- Case-sensitive literal tokens for a pattern fragment. -/
def litToks (s : String) : List RTok := s.data.map RTok.lit

/-- Case-insensitive literal tokens (`re.IGNORECASE` patterns, which the
sources apply to the original, un-lowered query). -/
def litICToks (s : String) : List RTok :=
  s.data.map (fun c => RTok.cls (fun x => lowerChar x = c) 1 (some 1))

/-- Token for `\s*`. -/
def wsStar : RTok := RTok.cls isSpaceC 0 none

/-- Token for `\s+`. -/
def wsPlus : RTok := RTok.cls isSpaceC 1 none

/-- Token for `[:\-]?`. -/
def optColonDash : RTok := RTok.cls (fun c => c = ':' || c = '-') 0 (some 1)

/-- Tokens for `\d{n}`. -/
def digitsExact (n : Nat) : RTok := RTok.cls isDigitC n (some n)

/-- Tokens for the `\d{4}-\d{2}-\d{2}` date group. -/
def dateGroup : List RTok :=
  [digitsExact 4, RTok.lit '-', digitsExact 2, RTok.lit '-', digitsExact 2]

/-- Tokens for the `\d{1,2}:\d{2}` time group. -/
def timeGroup : List RTok :=
  [RTok.cls isDigitC 1 (some 2), RTok.lit ':', digitsExact 2]

/-- Token for `(.+)` (`.` does not match a newline). -/
def dotPlus : RTok := RTok.cls (fun c => !(c = '\n')) 1 none

/-- Embedding of `re.search(r'\b\d{4}\b', query)`: leftmost run of four
digits delimited by word boundaries; returns the matched text. -/
def searchYear : Option Char → List Char → Option String
  | prev, a :: b :: c :: d :: rest =>
    if isDigitC a && isDigitC b && isDigitC c && isDigitC d
        && (match prev with | none => true | some p => !isWordC p)
        && (match rest with | [] => true | r :: _ => !isWordC r) then
      some (String.mk [a, b, c, d])
    else
      searchYear (some a) (b :: c :: d :: rest)
  | _, _ => none

/-- Embedding of `re.search(r'\b\d{4}\b', s)` applied to a string. -/
def searchYearS (s : String) : Option String := searchYear none s.data

/-! ### Dataset registry (`API_INFO`) -/

/-- One `API_INFO` entry. -/
structure ApiInfo : Type where
  name : String
  endpoint : String
  filters : List String
  columns : List String
deriving DecidableEq, Repr

/-- Python `dict.get` on a string-keyed association list. -/
def alistGet {α : Type} : List (String × α) → String → Option α
  | [], _ => none
  | (k', v) :: rest, k => if k' = k then some v else alistGet rest k

/-- Entry `API_INFO["aviation_grievance"]` from `pages/Air Sewa.py`. -/
def apiInfo_aviation_grievance : ApiInfo :=
  { name := "Aviation Grievance - as on date"
    endpoint := "https://api.data.gov.in/resource/7be93611-4e76-4077-8d00-6232d01367cf"
    filters := []
    columns := ["category", "subcategory", "type", "totalReceived",
      "activeGrievancesWithoutEscalation", "activeGrievancesWithEscalation",
      "closedGrievancesWithoutEscalation", "closedGrievancesWithEscalation",
      "successfulTransferIn", "successfulTransferOut",
      "grievancesWithoutRatings", "grievancesWithRatings",
      "grievancesWithVeryGoodRating", "grievanceswithgoodrating",
      "grievancesWithOKRating", "grievancesWithBadRating",
      "grievancesWithVeryBadRating", "twitterGrievances",
      "facebookGrievances", "grievancesAdditionalInfoProvided",
      "grievancesAdditionalInfoNotProvided", "grievancesWithoutFeedback",
      "grievancesWithFeedback", "grievancesWithFeedbackIssueNotResolved",
      "grievancesWithFeedbackIssueResolved"] }

/-- Entry `API_INFO["flight_schedule"]` from `pages/Air Sewa.py`. -/
def apiInfo_flight_schedule : ApiInfo :=
  { name := "Flight Schedule"
    endpoint := "https://api.data.gov.in/resource/b71db183-2d15-4f61-9cee-7de3c83561a1"
    filters := ["airline", "flightNumber", "origin", "destination",
      "daysOfWeek", "scheduledDepartureTime", "scheduledArrivalTime",
      "timezone", "validFrom", "validTo", "last_updated"]
    columns := ["airline", "flightNumber", "origin", "destination",
      "daysOfWeek", "scheduledDepartureTime", "scheduledArrivalTime",
      "timezone", "validFrom", "validTo", "lastUpdated"] }

/-- Entry `API_INFO["aviation_faqs"]` from `pages/Air Sewa.py`. -/
def apiInfo_aviation_faqs : ApiInfo :=
  { name := "AirSewa - Aviation Frequently Asked Questions (FAQs)"
    endpoint := "https://api.data.gov.in/resource/bc015fd1-a544-43b1-b4a2-729475c4580c"
    filters := ["category", "faqQuestion", "faqAnswer",
      "faqQuestionHindi", "faqAnswerHindi", "last_updated"]
    columns := ["category", "faqQuestion", "faqAnswer",
      "faqQuestionHindi", "faqAnswerHindi", "lastUpdated"] }

/-- Entry `API_INFO["airport_services"]` from `pages/Air Sewa.py`. -/
def apiInfo_airport_services : ApiInfo :=
  { name := "AirSewa - Airport Services Data"
    endpoint := "https://api.data.gov.in/resource/93710e81-db2b-4f95-9223-89156dfd8bc9"
    filters := ["airport", "categoryenglish", "categoryHindi",
      "titleEnglish", "titleHindi", "descriptionEnglish",
      "descriptionHindi", "email", "phone", "website", "last_updated"]
    columns := ["airport", "categoryenglish", "categoryHindi",
      "titleEnglish", "titleHindi", "descriptionEnglish",
      "descriptionHindi", "email", "phone", "website", "last_updated"] }

/-- The `API_INFO` table of `pages/Air Sewa.py`, in source order. -/
def API_INFO_airsewa : List (String × ApiInfo) :=
  [("aviation_grievance", apiInfo_aviation_grievance),
   ("flight_schedule", apiInfo_flight_schedule),
   ("aviation_faqs", apiInfo_aviation_faqs),
   ("airport_services", apiInfo_airport_services)]

/-- Entry `API_INFO["consumption_petroleum"]` from
`pages/Consumption of Petroleum Products.py`. -/
def apiInfo_consumption_petroleum : ApiInfo :=
  { name := "Consumption of Petroleum Products"
    endpoint := "https://api.data.gov.in/resource/7b624b4a-1456-4945-80d0-dfb5e40ddcff"
    filters := ["_month_", "year", "products", "quantity_000_metric_tonnes_",
      "updated_date"]
    columns := ["month", "year", "products", "quantity_000_metric_tonnes_",
      "updated_date"] }

/-- The `API_INFO` table of `pages/Consumption of Petroleum Products.py`. -/
def API_INFO_petroleum : List (String × ApiInfo) :=
  [("consumption_petroleum", apiInfo_consumption_petroleum)]

/-! ### Query classifiers (`classify_query`) -/

/-- The keyword table of `classify_query` in `pages/Air Sewa.py`, in the
dict's insertion (iteration) order. -/
def airsewa_keywords : List (String × List String) :=
  [("aviation_grievance", ["grievance", "complaint", "issue"]),
   ("flight_schedule",
    ["flight schedule", "flight status", "flight number", "departure", "arrival"]),
   ("aviation_faqs", ["faq", "frequently asked questions", "question", "answer"]),
   ("airport_services", ["airport services", "services", "facility", "services data"])]

/-- Does some keyword of `kws` occur as a substring of the (already
lower-cased) query text? -/
def kwHit (query_lower : String) (kws : List String) : Bool :=
  kws.any (fun kw => strContainsS query_lower kw)

/-- The nested `for api_id, kws in keywords.items(): for kw in kws: ...`
loop of `classify_query`: return the first identifier with a keyword hit. -/
def classifyLoop (query_lower : String) : List (String × List String) → Option String
  | [] => none
  | (api_id, kws) :: rest =>
    if kwHit query_lower kws then some api_id else classifyLoop query_lower rest

/-- Function `classify_query` of `pages/Air Sewa.py`. -/
def classify_query_airsewa (query : String) : Option String :=
  classifyLoop (pyLower query) airsewa_keywords

/-- The keyword list of `classify_query` in
`pages/Consumption of Petroleum Products.py`. -/
def petroleum_keywords : List String :=
  ["consumption", "petroleum", "lpg", "atf", "hsd", "sko", "naphtha",
   "bitumen", "fo & lshs"]

/-- Function `classify_query` of `pages/Consumption of Petroleum Products.py`. -/
def classify_query_petroleum (query : String) : Option String :=
  if kwHit (pyLower query) petroleum_keywords then some "consumption_petroleum"
  else none

/-! ### Vocabulary scans -/

/-- A `for entry in vocab: if entry.lower() in query.lower(): set; break`
loop: the first vocabulary entry occurring case-insensitively in the text. -/
def firstVocab (vocab : List String) (query : String) : Option String :=
  vocab.find? (fun v => strContainsS (pyLower query) (pyLower v))

/-- The `airlines` list of `parse_filters_flight_schedule`. -/
def airlines : List String :=
  ["IndiGo", "GoAir", "Jet Airways", "Air India", "Etihad Airways", "Vistara",
   "British Airways", "Thai Airways"]

/-- The `days` list of `parse_filters_flight_schedule`. -/
def daysList : List String :=
  ["Monday", "Tuesday", "Wednesday", "Thursday", "Friday", "Saturday", "Sunday"]

/-- The `found_days` list comprehension of `parse_filters_flight_schedule`:
all day names occurring case-insensitively in the text, in list order. -/
def foundDays (query : String) : List String :=
  daysList.filter (fun d => strContainsS (pyLower query) (pyLower d))

/-- The `categories` list of `parse_filters_aviation_faqs`. -/
def faqCategories : List String := ["Passenger", "Cargo", "Security", "Facilities"]

/-- The `airports` list of `parse_filters_airport_services`. -/
def airportsList : List String :=
  ["Chennai", "Mumbai", "Bengaluru", "Indore", "Delhi", "Hyderabad"]

/-- The `categories_eng` list of `parse_filters_airport_services`. -/
def categoriesEng : List String :=
  ["Parking and Transportation", "Special Assistance Services"]

/-- The `categories_hin` list of `parse_filters_airport_services`; the two
string literals transcribe the source file's characters exactly. -/
def categoriesHin : List String :=
  ["‡§™‡§æ‡§∞‡•ç‡§ï‡§ø‡§Ç‡§ó ‡§î‡§∞ ‡§™‡§∞‡§ø‡§µ‡§π‡§®",
   "‡§µ‡§ø‡§∂‡•á‡§∑ ‡§∏‡§π‡§æ‡§Ø‡§§‡§æ ‡§∏‡•á‡§µ‡§æ‡§è‡§Å"]

/-- The `months` list of `parse_filters_petroleum`. -/
def monthsList : List String :=
  ["January", "February", "March", "April", "May", "June",
   "July", "August", "September", "October", "November", "December"]

/-- The `possible_products` list of `parse_filters_petroleum`. -/
def possibleProducts : List String :=
  ["LPG", "ATF", "HSD", "SKO", "Naphtha", "Bitumen", "Others", "FO & LSHS"]

/-! ### Pattern definitions

Each `re_*` pair below embeds one `re.search` pattern of the sources,
split into prefix tokens and the trailing capture group. -/

/-- Group `(\d+)`. -/
def grp_digits : List RTok := [RTok.cls isDigitC 1 none]

/-- Group `(\w+)`. -/
def grp_word : List RTok := [RTok.cls isWordC 1 none]

/-- Group `([A-Za-z\s]+)`. -/
def grp_letters_spaces : List RTok :=
  [RTok.cls (fun c => isLetterC c || isSpaceC c) 1 none]

/-- Group `([\w\s/]+)`. -/
def grp_word_space_slash : List RTok :=
  [RTok.cls (fun c => isWordC c || isSpaceC c || c = '/') 1 none]

/-- Class token `[\w\.-]+`. -/
def wordDotDash : RTok := RTok.cls (fun c => isWordC c || c = '.' || c = '-') 1 none

/-- Group `([\w\.-]+@[\w\.-]+)`. -/
def grp_email : List RTok := [wordDotDash, RTok.lit '@', wordDotDash]

/-- Group `(\d{10,15})`. -/
def grp_phone : List RTok := [RTok.cls isDigitC 10 (some 15)]

/-- Group `(https?://\S+)` under `re.IGNORECASE`. -/
def grp_website : List RTok :=
  litICToks "http" ++ [RTok.cls (fun c => lowerChar c = 's') 0 (some 1)] ++
    litICToks "://" ++ [RTok.cls (fun c => !isSpaceC c) 1 none]

/-- Prefix of `limit\s*(\d+)`. -/
def re_limit_pre : List RTok := litToks "limit" ++ [wsStar]

/-- Prefix of `flight\s*number\s*(\w+)`. -/
def re_flight_number_pre : List RTok :=
  litToks "flight" ++ [wsStar] ++ litToks "number" ++ [wsStar]

/-- Prefix of `from\s+([A-Za-z\s]+)`. -/
def re_from_pre : List RTok := litToks "from" ++ [wsPlus]

/-- Prefix of `to\s+([A-Za-z\s]+)`. -/
def re_to_pre : List RTok := litToks "to" ++ [wsPlus]

/-- Prefix of `departure\s+time\s*[:\-]?\s*(\d{1,2}:\d{2})`. -/
def re_departure_time_pre : List RTok :=
  litToks "departure" ++ [wsPlus] ++ litToks "time" ++ [wsStar, optColonDash, wsStar]

/-- Prefix of `arrival\s+time\s*[:\-]?\s*(\d{1,2}:\d{2})`. -/
def re_arrival_time_pre : List RTok :=
  litToks "arrival" ++ [wsPlus] ++ litToks "time" ++ [wsStar, optColonDash, wsStar]

/-- Prefix of `timezone\s*[:\-]?\s*([\w\s/]+)`. -/
def re_timezone_pre : List RTok := litToks "timezone" ++ [wsStar, optColonDash, wsStar]

/-- Prefix of `valid\s*from\s*[:\-]?\s*(\d{4}-\d{2}-\d{2})`. -/
def re_valid_from_pre : List RTok :=
  litToks "valid" ++ [wsStar] ++ litToks "from" ++ [wsStar, optColonDash, wsStar]

/-- Prefix of `valid\s*to\s*[:\-]?\s*(\d{4}-\d{2}-\d{2})`. -/
def re_valid_to_pre : List RTok :=
  litToks "valid" ++ [wsStar] ++ litToks "to" ++ [wsStar, optColonDash, wsStar]

/-- Prefix of `last\s*updated\s*[:\-]?\s*(\d{4}-\d{2}-\d{2})`. -/
def re_last_updated_pre : List RTok :=
  litToks "last" ++ [wsStar] ++ litToks "updated" ++ [wsStar, optColonDash, wsStar]

/-- Prefix of `question\s*[:\-]?\s*(.+)` under `re.IGNORECASE`. -/
def re_question_pre : List RTok := litICToks "question" ++ [wsStar, optColonDash, wsStar]

/-- Prefix of `answer\s*[:\-]?\s*(.+)` under `re.IGNORECASE`. -/
def re_answer_pre : List RTok := litICToks "answer" ++ [wsStar, optColonDash, wsStar]

/-- Prefix of `question\s+hindi\s*[:\-]?\s*(.+)` under `re.IGNORECASE`. -/
def re_question_hindi_pre : List RTok :=
  litICToks "question" ++ [wsPlus] ++ litICToks "hindi" ++ [wsStar, optColonDash, wsStar]

/-- Prefix of `answer\s+hindi\s*[:\-]?\s*(.+)` under `re.IGNORECASE`. -/
def re_answer_hindi_pre : List RTok :=
  litICToks "answer" ++ [wsPlus] ++ litICToks "hindi" ++ [wsStar, optColonDash, wsStar]

/-- Prefix of `title\s*english\s*[:\-]?\s*(.+)` under `re.IGNORECASE`. -/
def re_title_english_pre : List RTok :=
  litICToks "title" ++ [wsStar] ++ litICToks "english" ++ [wsStar, optColonDash, wsStar]

/-- Prefix of `title\s*hindi\s*[:\-]?\s*(.+)` under `re.IGNORECASE`. -/
def re_title_hindi_pre : List RTok :=
  litICToks "title" ++ [wsStar] ++ litICToks "hindi" ++ [wsStar, optColonDash, wsStar]

/-- Prefix of `description\s*english\s*[:\-]?\s*(.+)` under `re.IGNORECASE`. -/
def re_description_english_pre : List RTok :=
  litICToks "description" ++ [wsStar] ++ litICToks "english" ++ [wsStar, optColonDash, wsStar]

/-- Prefix of `description\s*hindi\s*[:\-]?\s*(.+)` under `re.IGNORECASE`. -/
def re_description_hindi_pre : List RTok :=
  litICToks "description" ++ [wsStar] ++ litICToks "hindi" ++ [wsStar, optColonDash, wsStar]

/-- Prefix of `email\s*[:\-]?\s*([\w\.-]+@[\w\.-]+)` under `re.IGNORECASE`. -/
def re_email_pre : List RTok := litICToks "email" ++ [wsStar, optColonDash, wsStar]

/-- Prefix of `phone\s*[:\-]?\s*(\d{10,15})` under `re.IGNORECASE`. -/
def re_phone_pre : List RTok := litICToks "phone" ++ [wsStar, optColonDash, wsStar]

/-- Prefix of `website\s*[:\-]?\s*(https?://\S+)` under `re.IGNORECASE`. -/
def re_website_pre : List RTok := litICToks "website" ++ [wsStar, optColonDash, wsStar]

/-- Prefix of `quantity\s*[:\-]?\s*(\d+)`. -/
def re_quantity_pre : List RTok := litToks "quantity" ++ [wsStar, optColonDash, wsStar]

/-- Prefix of `updated\s*date\s*[:\-]?\s*(\d{4}-\d{2}-\d{2})`. -/
def re_updated_date_pre : List RTok :=
  litToks "updated" ++ [wsStar] ++ litToks "date" ++ [wsStar, optColonDash, wsStar]

/-! ### Filter extractors (`parse_filters_*`) -/

/-- The `limit` override step shared by all extractors:
`re.search(r'limit\s*(\d+)', query.lower())`, parsed with `int`. -/
def limitStep (query : String) : Option FVal :=
  (reSearchS re_limit_pre grp_digits (pyLower query)).map (fun g => FVal.int (strToNat g))

/-- Function `parse_filters_aviation_grievance` of `pages/Air Sewa.py`. -/
def parse_filters_aviation_grievance (query : String) : Filters :=
  runSteps [("offset", .int 0), ("limit", .int 10), ("format", .str "csv")]
    [("limit", limitStep query)]

/-- Function `parse_filters_flight_schedule` of `pages/Air Sewa.py`: the steps are
the conditional dict assignments of the source, in source order. -/
def parse_filters_flight_schedule (query : String) : Filters :=
  runSteps [("offset", .int 0), ("limit", .int 10), ("format", .str "csv")]
    [("airline", (firstVocab airlines query).map FVal.str),
     ("flightNumber",
      (reSearchS re_flight_number_pre grp_word (pyLower query)).map
        (fun g => FVal.str (pyUpper g))),
     ("origin",
      (reSearchS re_from_pre grp_letters_spaces (pyLower query)).map
        (fun g => FVal.str (pyTitle (pyStrip g)))),
     ("destination",
      (reSearchS re_to_pre grp_letters_spaces (pyLower query)).map
        (fun g => FVal.str (pyTitle (pyStrip g)))),
     ("daysOfWeek",
      if (foundDays query).isEmpty then none
      else some (FVal.str (String.intercalate "," (foundDays query)))),
     ("scheduledDepartureTime",
      (reSearchS re_departure_time_pre timeGroup (pyLower query)).map FVal.str),
     ("scheduledArrivalTime",
      (reSearchS re_arrival_time_pre timeGroup (pyLower query)).map FVal.str),
     ("timezone",
      (reSearchS re_timezone_pre grp_word_space_slash (pyLower query)).map
        (fun g => FVal.str (pyTitle (pyStrip g)))),
     ("validFrom",
      (reSearchS re_valid_from_pre dateGroup (pyLower query)).map FVal.str),
     ("validTo",
      (reSearchS re_valid_to_pre dateGroup (pyLower query)).map FVal.str),
     ("last_updated",
      (reSearchS re_last_updated_pre dateGroup (pyLower query)).map FVal.str),
     ("limit", limitStep query)]

/-- Function `parse_filters_aviation_faqs` of `pages/Air Sewa.py`; the
`re.IGNORECASE` label patterns run on the original query and their
captures keep its casing. -/
def parse_filters_aviation_faqs (query : String) : Filters :=
  runSteps [("offset", .int 0), ("limit", .int 10), ("format", .str "csv")]
    [("category", (firstVocab faqCategories query).map FVal.str),
     ("faqQuestion",
      (reSearchS re_question_pre [dotPlus] query).map
        (fun g => FVal.str (pyStrip g))),
     ("faqAnswer",
      (reSearchS re_answer_pre [dotPlus] query).map
        (fun g => FVal.str (pyStrip g))),
     ("faqQuestionHindi",
      (reSearchS re_question_hindi_pre [dotPlus] query).map
        (fun g => FVal.str (pyStrip g))),
     ("faqAnswerHindi",
      (reSearchS re_answer_hindi_pre [dotPlus] query).map
        (fun g => FVal.str (pyStrip g))),
     ("last_updated",
      (reSearchS re_last_updated_pre dateGroup (pyLower query)).map FVal.str),
     ("limit", limitStep query)]

/-- Function `parse_filters_airport_services` of `pages/Air Sewa.py`. -/
def parse_filters_airport_services (query : String) : Filters :=
  runSteps [("offset", .int 0), ("limit", .int 10), ("format", .str "csv")]
    [("airport", (firstVocab airportsList query).map FVal.str),
     ("categoryenglish", (firstVocab categoriesEng query).map FVal.str),
     ("categoryHindi", (firstVocab categoriesHin query).map FVal.str),
     ("titleEnglish",
      (reSearchS re_title_english_pre [dotPlus] query).map
        (fun g => FVal.str (pyStrip g))),
     ("titleHindi",
      (reSearchS re_title_hindi_pre [dotPlus] query).map
        (fun g => FVal.str (pyStrip g))),
     ("descriptionEnglish",
      (reSearchS re_description_english_pre [dotPlus] query).map
        (fun g => FVal.str (pyStrip g))),
     ("descriptionHindi",
      (reSearchS re_description_hindi_pre [dotPlus] query).map
        (fun g => FVal.str (pyStrip g))),
     ("email", (reSearchS re_email_pre grp_email query).map FVal.str),
     ("phone", (reSearchS re_phone_pre grp_phone query).map FVal.str),
     ("website", (reSearchS re_website_pre grp_website query).map FVal.str),
     ("last_updated",
      (reSearchS re_last_updated_pre dateGroup (pyLower query)).map FVal.str),
     ("limit", limitStep query)]

/-- Function `parse_filters_petroleum` of
`pages/Consumption of Petroleum Products.py`; note that the month is
stored under the key `"month"` and the year pattern runs on the original
query. -/
def parse_filters_petroleum (query : String) : Filters :=
  runSteps [("offset", .int 0), ("limit", .int 15), ("format", .str "csv")]
    [("month", (firstVocab monthsList query).map FVal.str),
     ("year", (searchYearS query).map FVal.str),
     ("products", (firstVocab possibleProducts query).map FVal.str),
     ("quantity_000_metric_tonnes_",
      (reSearchS re_quantity_pre grp_digits (pyLower query)).map FVal.str),
     ("updated_date",
      (reSearchS re_updated_date_pre dateGroup (pyLower query)).map FVal.str),
     ("limit", limitStep query)]

/-! ### Request dispatcher (`call_api`)

The HTTP call itself cannot be embedded; `call_api` is split at the
`requests.get` line into a request-building half (below) and a
response-handling half (`response_result`).  The secret store
`st.secrets` is a parameter `secrets : String → Option String`; a lookup
`st.secrets["K"]` with `K` absent raises, which the embedding models as
`Except.error (PyErr.keyError K)`. -/

/-- An uncaught Python exception. -/
inductive PyErr : Type
  | keyError (k : String)
deriving DecidableEq, Repr

/-- Outcome of the request-building half of `call_api`: either one of the
early `{"error": ...}` returns, or the URL and parameter dict of the
`requests.get` call. -/
inductive BuildStep : Type
  | errorDict (msg : String)
  | request (url : String) (params : List (String × FVal))
deriving DecidableEq, Repr

/-- Lookup `st.secrets[k]`: the value if present, otherwise a raised `KeyError`. -/
def secretGet (secrets : String → Option String) (k : String) :
    Except PyErr String :=
  match secrets k with
  | some v => Except.ok v
  | none => Except.error (PyErr.keyError k)

/-- The `for filter_key in api["filters"]` loop of `call_api`: one
`filters[<key>]` parameter per recognized filter field with a truthy
value in the FilterSet. -/
def buildFilterParams (apiFilters : List String) (filters : Filters) :
    List (String × FVal) :=
  apiFilters.filterMap (fun fk =>
    match fget filters fk with
    | some v => if fvalTruthy v then some ("filters[" ++ fk ++ "]", v) else none
    | none => none)

/-- Request-building half of `call_api` in `pages/Air Sewa.py`
(everything before `requests.get`), including the eager construction of
`api_key_mapping` from `st.secrets`. -/
def call_api_airsewa (secrets : String → Option String) (api_identifier : String)
    (filters : Filters) (format_type : String) : Except PyErr BuildStep :=
  match secretGet secrets "AVIATION_GRI_API_KEY" with
  | Except.error e => Except.error e
  | Except.ok key_gri =>
  match secretGet secrets "FLIGHT_SCHEDULE_API_KEY" with
  | Except.error e => Except.error e
  | Except.ok key_fs =>
  match secretGet secrets "AV_FAQ_API_KEY" with
  | Except.error e => Except.error e
  | Except.ok key_faq =>
  match secretGet secrets "AIRPORT_SERVICES_API_KEY" with
  | Except.error e => Except.error e
  | Except.ok key_as =>
  let api_key_mapping : List (String × String) :=
    [("aviation_grievance", key_gri), ("flight_schedule", key_fs),
     ("aviation_faqs", key_faq), ("airport_services", key_as)]
  match alistGet api_key_mapping api_identifier with
  | none => Except.ok (BuildStep.errorDict "API key not found for the selected API.")
  | some api_key =>
    if api_key = "" then
      Except.ok (BuildStep.errorDict "API key not found for the selected API.")
    else
      match alistGet API_INFO_airsewa api_identifier with
      | none => Except.ok (BuildStep.errorDict "Invalid API identifier.")
      | some api =>
        Except.ok (BuildStep.request api.endpoint
          ([("api-key", FVal.str api_key), ("format", FVal.str format_type),
            ("offset", (fget filters "offset").getD (FVal.int 0)),
            ("limit", (fget filters "limit").getD (FVal.int 10))] ++
            buildFilterParams api.filters filters))

/-- Request-building half of `call_api` in
`pages/Consumption of Petroleum Products.py` (default limit 15). -/
def call_api_petroleum (secrets : String → Option String) (api_identifier : String)
    (filters : Filters) (format_type : String) : Except PyErr BuildStep :=
  match secretGet secrets "PETROLEUM_API_KEY" with
  | Except.error e => Except.error e
  | Except.ok key_pet =>
  let api_key_mapping : List (String × String) :=
    [("consumption_petroleum", key_pet)]
  match alistGet api_key_mapping api_identifier with
  | none => Except.ok (BuildStep.errorDict "API key not found for the selected API.")
  | some api_key =>
    if api_key = "" then
      Except.ok (BuildStep.errorDict "API key not found for the selected API.")
    else
      match alistGet API_INFO_petroleum api_identifier with
      | none => Except.ok (BuildStep.errorDict "Invalid API identifier.")
      | some api =>
        Except.ok (BuildStep.request api.endpoint
          ([("api-key", FVal.str api_key), ("format", FVal.str format_type),
            ("offset", (fget filters "offset").getD (FVal.int 0)),
            ("limit", (fget filters "limit").getD (FVal.int 15))] ++
            buildFilterParams api.filters filters))

/-! ### Response normalizer

The response-handling half of `call_api` (after `requests.get`),
identical in both source files.  The pandas CSV parser and the
JSON-decode-plus-`get("records", [])` step are abstract parameters:
`Except.error` is a raised-and-caught parse exception, `Except.ok rows`
a successful parse (`df.empty`, and falsy `records`, correspond to an
empty row list). -/

/-- A parsed record row (opaque to the dispatch layer). -/
def Rec : Type := List (String × String)

/-- The `result` dict of `call_api`. -/
structure ApiResult : Type where
  filters_used : Filters
  response_data : List Rec
  message : String

/-- Response-handling half of `call_api` (both sources, lines after
`requests.get`): status check, format dispatch, parse, empty-result
message, parse-failure message. -/
def response_result (filters : Filters) (status_code : Nat) (format_type : String)
    (read_csv : String → Except String (List Rec))
    (json_records : String → Except String (List Rec))
    (text : String) : ApiResult :=
  if status_code = 200 then
    if format_type = "csv" then
      match read_csv text with
      | Except.ok rows =>
        { filters_used := filters, response_data := rows
          message := if rows.isEmpty then "No data found for the given filters." else "" }
      | Except.error e =>
        { filters_used := filters, response_data := []
          message := "Failed to parse CSV data: " ++ e }
    else
      match json_records text with
      | Except.ok records =>
        { filters_used := filters, response_data := records
          message := if records.isEmpty then "No data found for the given filters." else "" }
      | Except.error e =>
        { filters_used := filters, response_data := []
          message := "Failed to parse JSON data: " ++ e }
  else
    { filters_used := filters, response_data := []
      message := "Request failed with status code " ++ toString status_code ++ "." }

/-! ### Step lemmas for the extractors -/

theorem fget_applyStep_key (fs : Filters) (k1 : String) (o : Option FVal) (k : String) :
    fget (applyStep fs (k1, o)) k =
      match o with
      | some v => if k1 = k then some v else fget fs k
      | none => fget fs k := by
  cases o with
  | none => rfl
  | some v => simp [applyStep, fget_dictSet]

theorem fget_runSteps_congr (steps : List (String × Option FVal)) (X Y : Filters)
    (k : String) (h : fget X k = fget Y k) :
    fget (runSteps X steps) k = fget (runSteps Y steps) k := by
  induction steps generalizing X Y with
  | nil => exact h
  | cons p rest ih =>
    rw [runSteps_cons, runSteps_cons]
    apply ih
    obtain ⟨k1, o⟩ := p
    rw [fget_applyStep_key, fget_applyStep_key]
    cases o with
    | none => exact h
    | some v => by_cases hk : k1 = k <;> simp [hk, h]

theorem fget_runSteps_skip_head (init : Filters) (k1 : String) (o : Option FVal)
    (steps : List (String × Option FVal)) (k : String) (h : k1 ≠ k) :
    fget (runSteps init ((k1, o) :: steps)) k = fget (runSteps init steps) k := by
  rw [runSteps_cons]
  apply fget_runSteps_congr
  rw [fget_applyStep_key]
  cases o with
  | none => rfl
  | some v => simp [h]

theorem fget_parse_fs_airline (q : String) :
    fget (parse_filters_flight_schedule q) "airline" =
      (firstVocab airlines q).map FVal.str := by
  unfold parse_filters_flight_schedule
  rw [runSteps_cons]
  repeat rw [fget_runSteps_skip_head _ _ _ _ _ (by decide)]
  show fget (applyStep _ _) _ = _
  rw [fget_applyStep_key]
  cases h : firstVocab airlines q with
  | none => rfl
  | some a => simp

theorem fget_parse_fs_days (q : String) :
    fget (parse_filters_flight_schedule q) "daysOfWeek" =
      if (foundDays q).isEmpty then none
      else some (FVal.str (String.intercalate "," (foundDays q))) := by
  unfold parse_filters_flight_schedule
  repeat rw [fget_runSteps_skip_head _ _ _ _ _ (by decide)]
  rw [runSteps_cons]
  repeat rw [fget_runSteps_skip_head _ _ _ _ _ (by decide)]
  show fget (applyStep _ _) _ = _
  rw [fget_applyStep_key]
  by_cases h : (foundDays q).isEmpty
  · rw [if_pos h]
    rfl
  · rw [if_neg h]
    rfl

/-! ### Classifier lemmas -/

theorem classifyLoop_eq_find? (ql : String) (l : List (String × List String)) :
    classifyLoop ql l = (l.find? (fun p => kwHit ql p.2)).map Prod.fst := by
  induction l with
  | nil => rfl
  | cons p rest ih =>
    obtain ⟨id, kws⟩ := p
    by_cases h : kwHit ql kws
    · simp [classifyLoop, h]
    · simp [classifyLoop, h, ih]

/-- Claim C3: `classify_query` returns the identifier of the first
dataset, in the fixed registry iteration order, having some keyword
phrase occurring as a substring of the lower-cased text, and returns
`None` when no dataset's keywords occur; this holds for the Air Sewa
classifier (four datasets) and the petroleum classifier (one dataset). -/
theorem classify_query_first_match (q : String) :
    (∀ id : String, classify_query_airsewa q = some id ↔
      ∃ kws pre post, airsewa_keywords = pre ++ (id, kws) :: post ∧
        kwHit (pyLower q) kws = true ∧
        ∀ p ∈ pre, kwHit (pyLower q) p.2 = false)
    ∧ (classify_query_airsewa q = none ↔
        ∀ p ∈ airsewa_keywords, kwHit (pyLower q) p.2 = false)
    ∧ (classify_query_petroleum q = some "consumption_petroleum" ↔
        kwHit (pyLower q) petroleum_keywords = true)
    ∧ (classify_query_petroleum q = none ↔
        kwHit (pyLower q) petroleum_keywords = false) := by
  refine ⟨?_, ?_, ?_, ?_⟩
  · intro id
    rw [classify_query_airsewa, classifyLoop_eq_find?]
    constructor
    · intro h
      rcases Option.map_eq_some'.mp h with ⟨e, he, hid⟩
      obtain ⟨eid, ekws⟩ := e
      rcases List.find?_eq_some.mp he with ⟨hp, pre, post, heq, hpre⟩
      refine ⟨ekws, pre, post, ?_, by simpa using hp, ?_⟩
      · simpa [← hid] using heq
      · intro p hp'
        simpa using hpre p hp'
    · rintro ⟨kws, pre, post, heq, hhit, hpre⟩
      apply Option.map_eq_some'.mpr
      refine ⟨(id, kws), ?_, rfl⟩
      apply List.find?_eq_some.mpr
      refine ⟨by simpa using hhit, pre, post, heq, ?_⟩
      intro a ha
      simpa using hpre a ha
  · rw [classify_query_airsewa, classifyLoop_eq_find?]
    simp [List.find?_eq_none]
  · unfold classify_query_petroleum
    by_cases h : kwHit (pyLower q) petroleum_keywords <;> simp [h]
  · unfold classify_query_petroleum
    by_cases h : kwHit (pyLower q) petroleum_keywords <;> simp [h]

/-- Witness for C3 at a concrete input: on the text
`"flight schedule please"`, the Air Sewa classifier picks
`flight_schedule`, witnessed through the first-match characterization. -/
theorem classify_query_first_match_witness :
    classify_query_airsewa "flight schedule please" = some "flight_schedule" := by
  have h := (classify_query_first_match "flight schedule please").1 "flight_schedule"
  apply h.mpr
  exact ⟨["flight schedule", "flight status", "flight number", "departure", "arrival"],
    [("aviation_grievance", ["grievance", "complaint", "issue"])],
    [("aviation_faqs", ["faq", "frequently asked questions", "question", "answer"]),
     ("airport_services", ["airport services", "services", "facility", "services data"])],
    by decide, by decide, by decide⟩

/-! ### Extractor claims -/

/-- Claim C10: every extractor returns a FilterSet with `offset = 0`; no
extractor has a rule setting `offset` from the query text, so unlike
`limit` it can never be overridden by the user's input. -/
theorem extractors_offset_always_zero (q : String) :
    fget (parse_filters_aviation_grievance q) "offset" = some (FVal.int 0)
    ∧ fget (parse_filters_flight_schedule q) "offset" = some (FVal.int 0)
    ∧ fget (parse_filters_aviation_faqs q) "offset" = some (FVal.int 0)
    ∧ fget (parse_filters_airport_services q) "offset" = some (FVal.int 0)
    ∧ fget (parse_filters_petroleum q) "offset" = some (FVal.int 0) := by
  refine ⟨?_, ?_, ?_, ?_, ?_⟩ <;>
    simp only [parse_filters_aviation_grievance, parse_filters_flight_schedule,
      parse_filters_aviation_faqs, parse_filters_airport_services,
      parse_filters_petroleum] <;>
    (repeat rw [fget_runSteps_skip_head _ _ _ _ _ (by decide)]) <;> rfl

/-- Claim C9: the extractors are deterministic pure functions of the
query text; two calls on the same text yield identical FilterSets. -/
theorem extractors_deterministic (q : String) :
    parse_filters_aviation_grievance q = parse_filters_aviation_grievance q
    ∧ parse_filters_flight_schedule q = parse_filters_flight_schedule q
    ∧ parse_filters_aviation_faqs q = parse_filters_aviation_faqs q
    ∧ parse_filters_airport_services q = parse_filters_airport_services q
    ∧ parse_filters_petroleum q = parse_filters_petroleum q :=
  ⟨rfl, rfl, rfl, rfl, rfl⟩

/-- Claim C2 counterexample: on the query `"show me lpg in january 2022"`
the petroleum extractor's FilterSet contains the field name `"month"`,
which is absent from its descriptor's recognized filter fields (the
descriptor lists `"_month_"` instead). -/
theorem petroleum_month_field_counterexample :
    "month" ∈ fkeys (parse_filters_petroleum "show me lpg in january 2022")
    ∧ "month" ∉ apiInfo_consumption_petroleum.filters := by decide

/-- Claim C2 (amended): besides the always-present bookkeeping keys
`offset`, `limit` and `format` (never listed in any descriptor), every
field stored by the four Air Sewa extractors is listed in the matching
descriptor's `filters`; the petroleum extractor satisfies the same up to
one exception, the key `"month"`, which is absent from its descriptor
(which lists `"_month_"`). -/
theorem extractor_fields_recognized_amended (q : String) :
    (∀ k ∈ fkeys (parse_filters_aviation_grievance q),
      k ∈ "offset" :: "limit" :: "format" :: apiInfo_aviation_grievance.filters)
    ∧ (∀ k ∈ fkeys (parse_filters_flight_schedule q),
      k ∈ "offset" :: "limit" :: "format" :: apiInfo_flight_schedule.filters)
    ∧ (∀ k ∈ fkeys (parse_filters_aviation_faqs q),
      k ∈ "offset" :: "limit" :: "format" :: apiInfo_aviation_faqs.filters)
    ∧ (∀ k ∈ fkeys (parse_filters_airport_services q),
      k ∈ "offset" :: "limit" :: "format" :: apiInfo_airport_services.filters)
    ∧ (∀ k ∈ fkeys (parse_filters_petroleum q),
      k = "month" ∨
        k ∈ "offset" :: "limit" :: "format" :: apiInfo_consumption_petroleum.filters)
    ∧ "month" ∉ apiInfo_consumption_petroleum.filters := by
  refine ⟨?_, ?_, ?_, ?_, ?_, by decide⟩
  · intro k hk
    unfold parse_filters_aviation_grievance at hk
    rcases fkeys_runSteps _ _ k hk with h | h
    · have h2 : k ∈ ["offset", "limit", "format"] := h
      exact (by decide : ∀ x ∈ (["offset", "limit", "format"] : List String),
        x ∈ "offset" :: "limit" :: "format" :: apiInfo_aviation_grievance.filters) k h2
    · have h2 : k ∈ ["limit"] := h
      exact (by decide : ∀ x ∈ (["limit"] : List String),
        x ∈ "offset" :: "limit" :: "format" :: apiInfo_aviation_grievance.filters) k h2
  · intro k hk
    unfold parse_filters_flight_schedule at hk
    rcases fkeys_runSteps _ _ k hk with h | h
    · have h2 : k ∈ ["offset", "limit", "format"] := h
      exact (by decide : ∀ x ∈ (["offset", "limit", "format"] : List String),
        x ∈ "offset" :: "limit" :: "format" :: apiInfo_flight_schedule.filters) k h2
    · have h2 : k ∈ ["airline", "flightNumber", "origin", "destination", "daysOfWeek",
        "scheduledDepartureTime", "scheduledArrivalTime", "timezone", "validFrom",
        "validTo", "last_updated", "limit"] := h
      exact (by decide : ∀ x ∈ (["airline", "flightNumber", "origin", "destination",
        "daysOfWeek", "scheduledDepartureTime", "scheduledArrivalTime", "timezone",
        "validFrom", "validTo", "last_updated", "limit"] : List String),
        x ∈ "offset" :: "limit" :: "format" :: apiInfo_flight_schedule.filters) k h2
  · intro k hk
    unfold parse_filters_aviation_faqs at hk
    rcases fkeys_runSteps _ _ k hk with h | h
    · have h2 : k ∈ ["offset", "limit", "format"] := h
      exact (by decide : ∀ x ∈ (["offset", "limit", "format"] : List String),
        x ∈ "offset" :: "limit" :: "format" :: apiInfo_aviation_faqs.filters) k h2
    · have h2 : k ∈ ["category", "faqQuestion", "faqAnswer", "faqQuestionHindi",
        "faqAnswerHindi", "last_updated", "limit"] := h
      exact (by decide : ∀ x ∈ (["category", "faqQuestion", "faqAnswer",
        "faqQuestionHindi", "faqAnswerHindi", "last_updated", "limit"] : List String),
        x ∈ "offset" :: "limit" :: "format" :: apiInfo_aviation_faqs.filters) k h2
  · intro k hk
    unfold parse_filters_airport_services at hk
    rcases fkeys_runSteps _ _ k hk with h | h
    · have h2 : k ∈ ["offset", "limit", "format"] := h
      exact (by decide : ∀ x ∈ (["offset", "limit", "format"] : List String),
        x ∈ "offset" :: "limit" :: "format" :: apiInfo_airport_services.filters) k h2
    · have h2 : k ∈ ["airport", "categoryenglish", "categoryHindi", "titleEnglish",
        "titleHindi", "descriptionEnglish", "descriptionHindi", "email", "phone",
        "website", "last_updated", "limit"] := h
      exact (by decide : ∀ x ∈ (["airport", "categoryenglish", "categoryHindi",
        "titleEnglish", "titleHindi", "descriptionEnglish", "descriptionHindi",
        "email", "phone", "website", "last_updated", "limit"] : List String),
        x ∈ "offset" :: "limit" :: "format" :: apiInfo_airport_services.filters) k h2
  · intro k hk
    unfold parse_filters_petroleum at hk
    rcases fkeys_runSteps _ _ k hk with h | h
    · have h2 : k ∈ ["offset", "limit", "format"] := h
      exact Or.inr ((by decide : ∀ x ∈ (["offset", "limit", "format"] : List String),
        x ∈ "offset" :: "limit" :: "format" :: apiInfo_consumption_petroleum.filters) k h2)
    · have h2 : k ∈ ["month", "year", "products", "quantity_000_metric_tonnes_",
        "updated_date", "limit"] := h
      exact (by decide : ∀ x ∈ (["month", "year", "products",
        "quantity_000_metric_tonnes_", "updated_date", "limit"] : List String),
        x = "month" ∨
          x ∈ "offset" :: "limit" :: "format" :: apiInfo_consumption_petroleum.filters) k h2

/-- Witness for C2 (amended) at a concrete input: applying the amended
invariant to the query `"indigo"` and the key `"airline"` places the
airline field among the flight-schedule descriptor's recognized fields. -/
theorem extractor_fields_recognized_amended_witness :
    "airline" ∈ "offset" :: "limit" :: "format" :: apiInfo_flight_schedule.filters :=
  (extractor_fields_recognized_amended "indigo").2.1 "airline" (by decide)

/-- Claim C1 counterexample: on the scenario input the extractor does not
store airline `"Indigo"` (it stores the vocabulary entry `"IndiGo"`) and
does not store origin `"Bengaluru"` (the greedy `[A-Za-z\s]+` capture
yields `"Bengaluru To Lucknow"`), so the FilterSet claimed by the
specification scenario is not the one the code returns. -/
theorem flight_scenario_counterexample :
    ¬ (fget (parse_filters_flight_schedule
        "What is the flight schedule for IndiGo flight number 451 from Bengaluru to Lucknow?")
        "airline" = some (FVal.str "Indigo")
      ∧ fget (parse_filters_flight_schedule
        "What is the flight schedule for IndiGo flight number 451 from Bengaluru to Lucknow?")
        "origin" = some (FVal.str "Bengaluru")) := by decide

/-- Claim C1 (amended): on the scenario input the classifier selects
`flight_schedule`, and the extractor returns exactly the entries
`offset = 0`, `limit = 10`, `format = "csv"`, `airline = "IndiGo"`,
`flightNumber = "451"`, `origin = "Bengaluru To Lucknow"`,
`destination = "Lucknow"` (in insertion order). -/
theorem flight_scenario_amended :
    classify_query_airsewa
      "What is the flight schedule for IndiGo flight number 451 from Bengaluru to Lucknow?"
      = some "flight_schedule"
    ∧ parse_filters_flight_schedule
      "What is the flight schedule for IndiGo flight number 451 from Bengaluru to Lucknow?"
      = [("offset", FVal.int 0), ("limit", FVal.int 10), ("format", FVal.str "csv"),
         ("airline", FVal.str "IndiGo"), ("flightNumber", FVal.str "451"),
         ("origin", FVal.str "Bengaluru To Lucknow"),
         ("destination", FVal.str "Lucknow")] :=
  ⟨rfl, rfl⟩

/-- Claim C5 counterexample: on `"monday and friday flights"` the
`daysOfWeek` field captures two vocabulary entries joined by a comma —
the stored value is not a single entry of the day list, refuting "at
most one vocabulary entry is captured and scanning stops for that field
once one is found". -/
theorem days_of_week_multi_value_counterexample :
    fget (parse_filters_flight_schedule "monday and friday flights") "daysOfWeek" =
      some (FVal.str "Monday,Friday")
    ∧ "Monday,Friday" ∉ daysList := by decide

/-- Claim C5 (amended): the break-style vocabulary scans capture exactly
the first list entry occurring case-insensitively in the text (shown by
the first-match characterization of `firstVocab` and the airline field
equation); the `daysOfWeek` field however is a multi-value capture: it
stores every day name occurring in the text, in day-list order, joined
by commas. -/
theorem vocab_scan_first_match_amended (q : String) :
    (∀ (vocab : List String) (v : String), firstVocab vocab q = some v ↔
      ∃ pre post, vocab = pre ++ v :: post ∧
        strContainsS (pyLower q) (pyLower v) = true ∧
        ∀ w ∈ pre, strContainsS (pyLower q) (pyLower w) = false)
    ∧ fget (parse_filters_flight_schedule q) "airline" =
        (firstVocab airlines q).map FVal.str
    ∧ fget (parse_filters_flight_schedule q) "daysOfWeek" =
        (if (foundDays q).isEmpty then none
         else some (FVal.str (String.intercalate "," (foundDays q))))
    ∧ foundDays q = daysList.filter (fun d => strContainsS (pyLower q) (pyLower d)) := by
  refine ⟨?_, fget_parse_fs_airline q, fget_parse_fs_days q, rfl⟩
  intro vocab v
  unfold firstVocab
  rw [List.find?_eq_some]
  constructor
  · rintro ⟨hp, pre, post, heq, hpre⟩
    exact ⟨pre, post, heq, hp, fun w hw => by simpa using hpre w hw⟩
  · rintro ⟨pre, post, heq, hv, hpre⟩
    exact ⟨hv, pre, post, heq, fun a ha => by simpa using hpre a ha⟩

/-- Witness for C5 (amended) at a concrete input: on `"flights by indigo"`
the airline field holds the first matching vocabulary entry `"IndiGo"`. -/
theorem vocab_scan_first_match_amended_witness :
    fget (parse_filters_flight_schedule "flights by indigo") "airline" =
      some (FVal.str "IndiGo") := by
  have h := (vocab_scan_first_match_amended "flights by indigo").2.1
  rw [h]
  rfl

/-! ### Dispatcher lemmas -/

theorem filters_key_data (f : String) :
    ("filters[" ++ f ++ "]").data = "filters[".data ++ f.data ++ "]".data := by
  rw [String.data_append, String.data_append]

theorem filters_key_inj (f g : String)
    (h : "filters[" ++ f ++ "]" = "filters[" ++ g ++ "]") : f = g := by
  have hd := congrArg String.data h
  rw [filters_key_data, filters_key_data] at hd
  exact String.ext (List.append_cancel_left (List.append_cancel_right hd))

theorem len_filters_key (f : String) :
    ("filters[" ++ f ++ "]").data.length = f.data.length + 9 := by
  have h8 : ("filters[" : String).data.length = 8 := rfl
  have h1 : ("]" : String).data.length = 1 := rfl
  rw [filters_key_data]
  simp only [List.length_append, h8, h1]
  omega

theorem base_param_key_ne_filters (b f : String) (hb : b.data.length < 9) :
    b ≠ "filters[" ++ f ++ "]" := by
  intro h
  have hlen := congrArg (fun s => List.length (String.data s)) h
  simp only [] at hlen
  rw [len_filters_key] at hlen
  omega

theorem mem_buildFilterParams (apiFilters : List String) (filters : Filters)
    (f : String) (v : FVal)
    (h : ("filters[" ++ f ++ "]", v) ∈ buildFilterParams apiFilters filters) :
    f ∈ apiFilters := by
  unfold buildFilterParams at h
  rcases List.mem_filterMap.mp h with ⟨fk, hfk, hmatch⟩
  cases hget : fget filters fk with
  | none => rw [hget] at hmatch; simp at hmatch
  | some w =>
    rw [hget] at hmatch
    dsimp only at hmatch
    by_cases ht : fvalTruthy w
    · rw [if_pos ht] at hmatch
      have hpair := Option.some.inj hmatch
      have hkey := congrArg Prod.fst hpair
      simp only [] at hkey
      rw [filters_key_inj _ _ hkey.symm]
      exact hfk
    · rw [if_neg ht] at hmatch
      simp at hmatch

theorem call_api_airsewa_request_shape (secrets : String → Option String)
    (id : String) (filters : Filters) (fmt url : String)
    (params : List (String × FVal))
    (hcall : call_api_airsewa secrets id filters fmt =
      Except.ok (BuildStep.request url params)) :
    ∃ api api_key, alistGet API_INFO_airsewa id = some api ∧ url = api.endpoint ∧
      params = [("api-key", FVal.str api_key), ("format", FVal.str fmt),
        ("offset", (fget filters "offset").getD (FVal.int 0)),
        ("limit", (fget filters "limit").getD (FVal.int 10))] ++
        buildFilterParams api.filters filters := by
  unfold call_api_airsewa at hcall
  repeat (split at hcall <;> try simp_all)
  obtain ⟨hurl, hparams⟩ := hcall
  exact ⟨_, hparams.symm⟩

theorem call_api_petroleum_request_shape (secrets : String → Option String)
    (id : String) (filters : Filters) (fmt url : String)
    (params : List (String × FVal))
    (hcall : call_api_petroleum secrets id filters fmt =
      Except.ok (BuildStep.request url params)) :
    ∃ api api_key, alistGet API_INFO_petroleum id = some api ∧ url = api.endpoint ∧
      params = [("api-key", FVal.str api_key), ("format", FVal.str fmt),
        ("offset", (fget filters "offset").getD (FVal.int 0)),
        ("limit", (fget filters "limit").getD (FVal.int 15))] ++
        buildFilterParams api.filters filters := by
  unfold call_api_petroleum at hcall
  repeat (split at hcall <;> try simp_all)
  obtain ⟨hurl, hparams⟩ := hcall
  exact ⟨_, hparams.symm⟩

/-- Claim C4: every `filters[<fieldName>]` request parameter built by
either dispatcher names a field listed in the matching descriptor's
recognized filter fields; no `filters[...]` parameter with an
unrecognized field name is ever included. -/
theorem dispatcher_filter_params_recognized
    (secrets : String → Option String) (id : String) (filters : Filters)
    (fmt url : String) (params : List (String × FVal)) (f : String) (v : FVal) :
    (call_api_airsewa secrets id filters fmt = Except.ok (BuildStep.request url params) →
      ("filters[" ++ f ++ "]", v) ∈ params →
      ∃ api, alistGet API_INFO_airsewa id = some api ∧ f ∈ api.filters)
    ∧ (call_api_petroleum secrets id filters fmt = Except.ok (BuildStep.request url params) →
      ("filters[" ++ f ++ "]", v) ∈ params →
      ∃ api, alistGet API_INFO_petroleum id = some api ∧ f ∈ api.filters) := by
  constructor
  · intro hcall hmem
    obtain ⟨api, api_key, hapi, hurl, hparams⟩ :=
      call_api_airsewa_request_shape _ _ _ _ _ _ hcall
    subst hparams
    rcases List.mem_append.mp hmem with h | h
    · simp only [List.mem_cons, List.not_mem_nil, or_false] at h
      rcases h with h | h | h | h
      all_goals {
        have hkey := congrArg Prod.fst h
        simp only [] at hkey
        exact absurd hkey.symm (base_param_key_ne_filters _ _ (by decide))
      }
    · exact ⟨api, hapi, mem_buildFilterParams _ _ _ _ h⟩
  · intro hcall hmem
    obtain ⟨api, api_key, hapi, hurl, hparams⟩ :=
      call_api_petroleum_request_shape _ _ _ _ _ _ hcall
    subst hparams
    rcases List.mem_append.mp hmem with h | h
    · simp only [List.mem_cons, List.not_mem_nil, or_false] at h
      rcases h with h | h | h | h
      all_goals {
        have hkey := congrArg Prod.fst h
        simp only [] at hkey
        exact absurd hkey.symm (base_param_key_ne_filters _ _ (by decide))
      }
    · exact ⟨api, hapi, mem_buildFilterParams _ _ _ _ h⟩

/-- Witness for C4 at a concrete input: the airline filter parameter the
dispatcher sends for an extracted flight-schedule FilterSet names a
recognized field of the flight-schedule descriptor. -/
theorem dispatcher_filter_params_recognized_witness :
    ∃ api, alistGet API_INFO_airsewa "flight_schedule" = some api ∧
      "airline" ∈ api.filters :=
  (dispatcher_filter_params_recognized (fun _ => some "KEY") "flight_schedule"
    (parse_filters_flight_schedule "flight schedule for indigo") "csv"
    "https://api.data.gov.in/resource/b71db183-2d15-4f61-9cee-7de3c83561a1"
    [("api-key", FVal.str "KEY"), ("format", FVal.str "csv"),
     ("offset", FVal.int 0), ("limit", FVal.int 10),
     ("filters[airline]", FVal.str "IndiGo")] "airline" (FVal.str "IndiGo")).1
    (by rfl) (by decide)

/-- Claim C6 counterexample: dispatching an extractor-produced FilterSet
with `format_type = "json"` sends `format=json` — not `"csv"` — as the
request's format parameter: the dispatcher follows its `format_type`
argument and ignores the FilterSet's `format` field. -/
theorem dispatch_format_counterexample :
    call_api_airsewa (fun _ => some "KEY") "flight_schedule"
      (parse_filters_flight_schedule "flight schedule for indigo") "json"
      = Except.ok (BuildStep.request
          "https://api.data.gov.in/resource/b71db183-2d15-4f61-9cee-7de3c83561a1"
          [("api-key", FVal.str "KEY"), ("format", FVal.str "json"),
           ("offset", FVal.int 0), ("limit", FVal.int 10),
           ("filters[airline]", FVal.str "IndiGo")])
    ∧ ("format", FVal.str "csv") ∉
        [("api-key", FVal.str "KEY"), ("format", FVal.str "json"),
         ("offset", FVal.int 0), ("limit", FVal.int 10),
         ("filters[airline]", FVal.str "IndiGo")] :=
  ⟨by rfl, by decide⟩

/-- Claim C6 (amended): every extractor stores `format = "csv"` in its
FilterSet, but the dispatched request's `format` parameter equals the
dispatcher's `format_type` argument (whose default is `"csv"`, and which
the repository's callers never override); the FilterSet's `format` field
is ignored by the dispatcher. -/
theorem format_forced_amended (q : String) (secrets : String → Option String)
    (id : String) (filters : Filters) (fmt url : String)
    (params : List (String × FVal)) :
    (fget (parse_filters_aviation_grievance q) "format" = some (FVal.str "csv")
     ∧ fget (parse_filters_flight_schedule q) "format" = some (FVal.str "csv")
     ∧ fget (parse_filters_aviation_faqs q) "format" = some (FVal.str "csv")
     ∧ fget (parse_filters_airport_services q) "format" = some (FVal.str "csv")
     ∧ fget (parse_filters_petroleum q) "format" = some (FVal.str "csv"))
    ∧ (call_api_airsewa secrets id filters fmt =
        Except.ok (BuildStep.request url params) →
        ("format", FVal.str fmt) ∈ params)
    ∧ (call_api_petroleum secrets id filters fmt =
        Except.ok (BuildStep.request url params) →
        ("format", FVal.str fmt) ∈ params) := by
  refine ⟨?_, ?_, ?_⟩
  · refine ⟨?_, ?_, ?_, ?_, ?_⟩ <;>
      simp only [parse_filters_aviation_grievance, parse_filters_flight_schedule,
        parse_filters_aviation_faqs, parse_filters_airport_services,
        parse_filters_petroleum] <;>
      (repeat rw [fget_runSteps_skip_head _ _ _ _ _ (by decide)]) <;> rfl
  · intro hcall
    obtain ⟨api, api_key, hapi, hurl, hparams⟩ :=
      call_api_airsewa_request_shape _ _ _ _ _ _ hcall
    subst hparams
    simp
  · intro hcall
    obtain ⟨api, api_key, hapi, hurl, hparams⟩ :=
      call_api_petroleum_request_shape _ _ _ _ _ _ hcall
    subst hparams
    simp

/-- Witness for C6 (amended) at a concrete input: a dispatch with the
default format argument `"csv"` carries `format=csv` among its request
parameters. -/
theorem format_forced_amended_witness :
    ("format", FVal.str "csv") ∈
      [("api-key", FVal.str "KEY"), ("format", FVal.str "csv"),
       ("offset", FVal.int 0), ("limit", FVal.int 10),
       ("filters[airline]", FVal.str "IndiGo")] :=
  (format_forced_amended "x" (fun _ => some "KEY") "flight_schedule"
    (parse_filters_flight_schedule "flight schedule for indigo") "csv"
    "https://api.data.gov.in/resource/b71db183-2d15-4f61-9cee-7de3c83561a1"
    [("api-key", FVal.str "KEY"), ("format", FVal.str "csv"),
     ("offset", FVal.int 0), ("limit", FVal.int 10),
     ("filters[airline]", FVal.str "IndiGo")]).2.1 (by rfl)

/-- Claim C7 (code bug evaluation): with the `FLIGHT_SCHEDULE_API_KEY`
secret absent from the store, `call_api` raises an uncaught `KeyError`
while eagerly building `api_key_mapping` — before its own
missing-credential guard and before any network access — instead of
returning the claimed error-message result; likewise for the petroleum
module with `PETROLEUM_API_KEY` absent. -/
theorem missing_secret_raises_key_error :
    call_api_airsewa
      (fun k => if k = "FLIGHT_SCHEDULE_API_KEY" then none else some "KEY")
      "flight_schedule" ([] : Filters) "csv"
      = Except.error (PyErr.keyError "FLIGHT_SCHEDULE_API_KEY")
    ∧ call_api_petroleum (fun _ => none) "consumption_petroleum" ([] : Filters) "csv"
      = Except.error (PyErr.keyError "PETROLEUM_API_KEY") :=
  ⟨rfl, rfl⟩

theorem string_append_ne_empty (s t : String) (h : s ≠ "") : s ++ t ≠ "" := by
  intro he
  apply h
  have hd := congrArg String.data he
  rw [String.data_append] at hd
  have hnil : ("" : String).data = [] := rfl
  rw [hnil] at hd
  exact String.ext (List.append_eq_nil.mp hd).1

/-- Claim C8: for every response (any status code, any body, any declared
format, any behavior of the CSV/JSON parsers) the normalized result is in
exactly one of two states: non-empty records with an empty message, or
empty records with a non-empty message; records and a failure message are
never both populated, and parse failures become messages. -/
theorem response_result_dichotomy (filters : Filters) (status_code : Nat)
    (format_type : String) (read_csv json_records : String → Except String (List Rec))
    (text : String) :
    ((response_result filters status_code format_type read_csv json_records
        text).response_data ≠ []
      ∧ (response_result filters status_code format_type read_csv json_records
        text).message = "")
    ∨ ((response_result filters status_code format_type read_csv json_records
        text).response_data = []
      ∧ (response_result filters status_code format_type read_csv json_records
        text).message ≠ "") := by
  unfold response_result
  by_cases h200 : status_code = 200
  · rw [if_pos h200]
    by_cases hfmt : format_type = "csv"
    · rw [if_pos hfmt]
      cases hcsv : read_csv text with
      | ok rows =>
        cases rows with
        | nil =>
          right
          exact ⟨rfl, by show "No data found for the given filters." ≠ ""; decide⟩
        | cons r rs =>
          left
          exact ⟨by simp, rfl⟩
      | error e =>
        right
        refine ⟨rfl, ?_⟩
        show "Failed to parse CSV data: " ++ e ≠ ""
        exact string_append_ne_empty _ _ (by decide)
    · rw [if_neg hfmt]
      cases hjson : json_records text with
      | ok records =>
        cases records with
        | nil =>
          right
          exact ⟨rfl, by show "No data found for the given filters." ≠ ""; decide⟩
        | cons r rs =>
          left
          exact ⟨by simp, rfl⟩
      | error e =>
        right
        refine ⟨rfl, ?_⟩
        show "Failed to parse JSON data: " ++ e ≠ ""
        exact string_append_ne_empty _ _ (by decide)
  · rw [if_neg h200]
    right
    refine ⟨rfl, ?_⟩
    show "Request failed with status code " ++ toString status_code ++ "." ≠ ""
    exact string_append_ne_empty _ _
      (string_append_ne_empty _ _ (by decide))

end GovDash
